import Mathlib

/-
Verification of the FadADB device-state persistence and reconciliation layer
(src/FadADB.py). The Python code is shallowly embedded: string manipulation is
modelled structurally over lists of characters, the JSON values the program
reads and writes are an inductive type, and the filesystem touched by the
StateManager (the state file, its temporary sibling, and the .corrupted backup)
is an explicit record threaded through the operations. External effects (the
adb bridge, lock acquisition, file-creation success) are supplied as oracles,
so each operation is a total, executable function.
-/

namespace FadADB

/- Python string primitives, modelled structurally over List Char so that every
definition reduces in the kernel. -/

/-- listIsPre pat l is true when pat is an initial segment of l; models the
Python str.startswith check. -/
def listIsPre : List Char → List Char → Bool
  | [], _ => true
  | _ :: _, [] => false
  | p :: ps, c :: cs => p == c && listIsPre ps cs

/-- pySubIn needle hay models the Python substring containment test
(needle in hay). -/
def pySubIn (needle : List Char) : List Char → Bool
  | [] => listIsPre needle []
  | c :: rest => listIsPre needle (c :: rest) || pySubIn needle rest

/-- splitChar sep l models the Python str.split(sep) for a one-character
separator: it never drops empty fields and yields one more field than there
are separators. -/
def splitChar (sep : Char) : List Char → List (List Char)
  | [] => [[]]
  | c :: rest =>
    let r := splitChar sep rest
    if c == sep then [] :: r
    else
      match r with
      | [] => [[c]]
      | h :: t => (c :: h) :: t

/-- stripL models Python str.strip(): leading and trailing whitespace removed. -/
def stripL (l : List Char) : List Char :=
  ((l.dropWhile Char.isWhitespace).reverse.dropWhile Char.isWhitespace).reverse

/-- pyWordsAux walks the characters accumulating the current word reversed;
words are emitted at whitespace boundaries from last to current. -/
def pyWordsAux : List Char → List Char → List (List Char)
  | [], acc => if acc.isEmpty then [] else [acc.reverse]
  | c :: rest, acc =>
    if c.isWhitespace then
      if acc.isEmpty then pyWordsAux rest [] else acc.reverse :: pyWordsAux rest []
    else pyWordsAux rest (c :: acc)

/-- pyWords models Python str.split() with no argument: split on whitespace
runs, dropping empty fields. -/
def pyWords (l : List Char) : List (List Char) :=
  pyWordsAux l []

/-- pyIsdigit models Python str.isdigit() for the ASCII strings this program
handles: nonempty and all decimal digits. -/
def pyIsdigit (l : List Char) : Bool :=
  !l.isEmpty && l.all Char.isDigit

/-- digitsToNat models Python int() on an all-digit string. -/
def digitsToNat (l : List Char) : Nat :=
  l.foldl (fun n c => 10 * n + (c.toNat - 48)) 0

/-- firstSome f l models a Python for-loop that returns the first hit of f and
falls through to none. -/
def firstSome (f : α → Option β) : List α → Option β
  | [] => none
  | a :: l =>
    match f a with
    | some b => some b
    | none => firstSome f l

/- The values the program exchanges with json.load and json.dump. -/

/-- Json models the Python values that json.load can produce and json.dump can
consume in this program (numbers restricted to integers, which is all the
state file ever holds). -/
inductive Json where
  | null : Json
  | bool (b : Bool) : Json
  | num (n : Int) : Json
  | str (s : String) : Json
  | arr (elems : List Json) : Json
  | obj (fields : List (String × Json)) : Json

/-- lookupField models Python dict lookup on an object parsed by json.load;
with duplicate keys json.load keeps the last occurrence, so the search prefers
later fields. -/
def lookupField (key : String) : List (String × Json) → Option Json
  | [] => none
  | (k, v) :: rest =>
    match lookupField key rest with
    | some r => some r
    | none => if k = key then some v else none

/-- natToCharsAux renders a natural number in decimal with explicit fuel so the
recursion is structural. -/
def natToCharsAux : Nat → Nat → List Char
  | 0, _ => []
  | fuel + 1, n =>
    if n < 10 then [Char.ofNat (48 + n)]
    else natToCharsAux fuel (n / 10) ++ [Char.ofNat (48 + n % 10)]

/-- natToStr renders a natural number in decimal. -/
def natToStr (n : Nat) : String :=
  String.mk (natToCharsAux (n + 1) n)

/-- intToStr models Python str() on an integer. -/
def intToStr : Int → String
  | Int.ofNat n => natToStr n
  | Int.negSucc n => "-" ++ natToStr (n + 1)

mutual

/-- pyToStr models Python str() on a state-file value, as used by the f-string
in auto_reconnect_wireless. Container rendering approximates Python (element
quotes are omitted); the rendered text only selects which response the abstract
bridge oracle gives, so the punctuation is not load-bearing. -/
def pyToStr : Json → String
  | Json.null => "None"
  | Json.bool b => if b then "True" else "False"
  | Json.num n => intToStr n
  | Json.str s => s
  | Json.arr xs => "[" ++ pyToStrList xs ++ "]"
  | Json.obj fs => "\x7b" ++ pyToStrFields fs ++ "\x7d"

/-- pyToStrList renders the elements of a list value, comma separated. -/
def pyToStrList : List Json → String
  | [] => ""
  | [x] => pyToStr x
  | x :: rest => pyToStr x ++ ", " ++ pyToStrList rest

/-- pyToStrFields renders the fields of an object value, comma separated. -/
def pyToStrFields : List (String × Json) → String
  | [] => ""
  | [(k, v)] => k ++ ": " ++ pyToStr v
  | (k, v) :: rest => k ++ ": " ++ pyToStr v ++ ", " ++ pyToStrFields rest

end

/- The filesystem slice the StateManager touches. -/

/-- FileContent is the content of one file: either bytes that parse as JSON
(held as the parsed value) or bytes that raise json.JSONDecodeError. -/
inductive FileContent where
  | json (v : Json) : FileContent
  | raw (text : String) : FileContent

/-- FS holds the three paths the StateManager can touch: the state file
itself, its temporary sibling produced by with_suffix of the state path, and
the .corrupted backup path. none means the file does not exist. -/
structure FS where
  stateFile : Option FileContent
  tempFile : Option FileContent
  corruptedFile : Option FileContent

/-- SaveEnv fixes the outcome of each fallible step of save_state: opening
(creating or truncating) the temporary file, acquiring the advisory lock,
serializing with json.dump plus flush and fsync, and the final atomic
rename/replace. -/
structure SaveEnv where
  openOk : Bool
  lockOk : Bool
  dumpOk : Bool
  renameOk : Bool

/-- LoadEnv fixes the outcome of each fallible step of load_state: opening the
state file for reading, acquiring the advisory lock, the best-effort
shutil.copy2 backup of a corrupted file, and the file creation inside
_ensure_state_file_exists. -/
structure LoadEnv where
  openOk : Bool
  lockOk : Bool
  backupOk : Bool
  createOk : Bool

/-- defaultState is StateManager.default_state, the JSON document written on
initialization. -/
def defaultState : Json :=
  Json.obj [("wireless_ips", Json.arr [])]

/-- strIpValid models the per-element test of save_state (FadADB.py lines
137-141): the element must contain a colon, and the text before the first
colon must split on dots into exactly four all-digit groups each of integer
value at most 255. The text after the colon (the port) is not inspected. -/
def strIpValid (s : String) : Bool :=
  let cs := s.data
  if cs.any (fun c => c == ':') then
    let ipPart := (splitChar ':' cs).headD []
    let parts := splitChar '.' ipPart
    parts.length == 4 && parts.all (fun p => pyIsdigit p && decide (digitsToNat p ≤ 255))
  else false

/-- pyValidIps models the validation loop of save_state (FadADB.py lines
135-146): non-string elements and strings failing strIpValid are dropped with
a logged warning; surviving elements are kept in order, duplicates included. -/
def pyValidIps : List Json → List String
  | [] => []
  | Json.str s :: rest =>
    if strIpValid s then s :: pyValidIps rest else pyValidIps rest
  | _ :: rest => pyValidIps rest

/-- save_state models StateManager.save_state (FadADB.py lines 127-182). A
non-list argument is rejected before anything is touched. Otherwise the
elements are validated, the temporary sibling file is opened for writing
(created or truncated to empty), the advisory lock is taken on it, the
document is serialized, flushed and fsynced, and the temporary file is
atomically renamed over the state file (the Windows replace/rename split at
lines 163-171 collapses to one rename here). A lock failure returns False
from inside the with-block, so no exception is raised and the except handler
that unlinks the temporary file never runs; every other failure after open is
an exception, caught at line 175, which unlinks the temporary file. -/
def save_state (arg : Json) (env : SaveEnv) (fs : FS) : Bool × FS :=
  match arg with
  | Json.arr xs =>
    let valid_ips := pyValidIps xs
    if env.openOk then
      -- temporary file now exists, truncated to empty
      if env.lockOk then
        if env.dumpOk then
          let written : FileContent :=
            FileContent.json (Json.obj [("wireless_ips", Json.arr (valid_ips.map Json.str))])
          if env.renameOk then
            (true, ⟨some written, none, fs.corruptedFile⟩)
          else
            -- rename raised: except handler unlinks the temporary file
            (false, ⟨fs.stateFile, none, fs.corruptedFile⟩)
        else
          -- json.dump raised inside the with-block: except handler unlinks
          (false, ⟨fs.stateFile, none, fs.corruptedFile⟩)
      else
        -- lock not acquired: early return False, temporary file left behind
        (false, ⟨fs.stateFile, some (FileContent.raw ""), fs.corruptedFile⟩)
    else
      -- open raised before creating the file: except handler unlinks any
      -- stale temporary file that may exist
      (false, ⟨fs.stateFile, none, fs.corruptedFile⟩)
  | _ =>
    -- isinstance check at line 130 fails: return False with nothing touched
    (false, fs)

/-- load_state models StateManager.load_state (FadADB.py lines 184-228)
together with _ensure_state_file_exists (lines 50-58). An absent file is
recreated with the default document (best effort) and the call returns the
empty list without reading it back. Otherwise the file is opened and locked;
a lock failure returns the empty list. Content raising json.JSONDecodeError
is backed up to the .corrupted sibling (best effort) and then
_ensure_state_file_exists is called, which does nothing because the state
file still exists, so the corrupted bytes stay in place. Parsed content that
is not an object carrying the wireless_ips key, or whose wireless_ips value
is not a list, yields the empty list; a list value is returned as is. Any
other exception (modelled: the open failure) is caught at line 226 and yields
the empty list. -/
def load_state (env : LoadEnv) (fs : FS) : List Json × FS :=
  match fs.stateFile with
  | none =>
    if env.createOk then ([], ⟨some (FileContent.json defaultState), fs.tempFile, fs.corruptedFile⟩)
    else ([], fs)
  | some content =>
    if env.openOk then
      if env.lockOk then
        match content with
        | FileContent.raw _ =>
          if env.backupOk then ([], ⟨fs.stateFile, fs.tempFile, some content⟩)
          else ([], fs)
        | FileContent.json v =>
          match v with
          | Json.obj fields =>
            match lookupField "wireless_ips" fields with
            | some (Json.arr l) => (l, fs)
            | some _ => ([], fs)
            | none => ([], fs)
          | _ => ([], fs)
      else ([], fs)
    else ([], fs)

/- The device-enumeration layer. The external adb bridge is an oracle: the
text each invocation would print on stdout. -/

/-- AdbEnv is the bridge oracle for one reconcile or reconnect cycle:
devicesOut is the (already stripped) stdout of the adb devices invocation,
ipShowOut gives per device serial the stdout of
adb -s serial shell ip -f inet addr show wlan0, and connectOut gives per
rendered target the stdout of adb connect target. The tcpip invocation inside
ensure_wireless_connected only has side effects on the device, so it needs no
oracle entry. -/
structure AdbEnv where
  devicesOut : String
  ipShowOut : String → String
  connectOut : String → String

/-- get_connected_devices models the function at FadADB.py lines 264-267:
drop the header line of adb devices, keep lines containing a tab followed by
the word device, and take the text before the first tab. -/
def get_connected_devices (env : AdbEnv) : List String :=
  ((splitChar '\n' env.devicesOut.data).drop 1
    |>.filter (fun line => pySubIn ("\tdevice".data) line)
    |>.map (fun line => String.mk ((splitChar '\t' line).headD [])))

/-- is_wireless models the function at FadADB.py lines 269-271: the device id
is classified wireless exactly when it starts with the four characters
192 dot. -/
def is_wireless (device_id : String) : Bool :=
  listIsPre ("192.".data) device_id.data

/-- extractInetIp models the per-line work of get_device_ip (FadADB.py lines
284-287): strip the line, require the stripped line to start with the five
characters inet space, take the second whitespace-separated token and the
text before its first slash. -/
def extractInetIp (line : List Char) : Option (List Char) :=
  let l := stripL line
  if listIsPre ("inet ".data) l then
    some ((splitChar '/' ((pyWords l).getD 1 [])).headD [])
  else none

/-- wifiIpPick is the body of the scan loop of get_device_ip (FadADB.py lines
284-289): an inet line whose extracted address starts with 192 dot yields that
address, every other line yields nothing and the loop continues. -/
def wifiIpPick (line : List Char) : Option String :=
  match extractInetIp line with
  | some ip => if listIsPre ("192.".data) ip then some (String.mk ip) else none
  | none => none

/-- get_device_ip models the function at FadADB.py lines 280-290: scan the
lines of the interface listing and return the first extracted address that
starts with 192 dot; otherwise none. A failed bridge call surfaces as empty
output, which also yields none. -/
def get_device_ip (env : AdbEnv) (device_id : String) : Option String :=
  firstSome wifiIpPick (splitChar '\n' (env.ipShowOut device_id).data)

/-- connectedMarker models the success test used at FadADB.py lines 300 and
333: the stdout of adb connect contains connected or already connected (the
second disjunct is subsumed by the first but kept as written). -/
def connectedMarker (out : String) : Bool :=
  pySubIn ("connected".data) out.data || pySubIn ("already connected".data) out.data

/-- ensure_wireless_connected models the function at FadADB.py lines 292-302:
resolve the device address; with none give up, otherwise enable tcpip mode,
invoke adb connect on address:5555 and return address:5555 when the output
carries the connected marker. -/
def ensure_wireless_connected (env : AdbEnv) (device_id : String) : Option String :=
  match get_device_ip env device_id with
  | none => none
  | some ip =>
    let target := ip ++ ":5555"
    if connectedMarker (env.connectOut target) then some target else none

/-- seen_wireless_ips models the wireless_ips accumulation loop of
get_all_devices_with_wireless (FadADB.py lines 316-323): per connected device
in order, a device already classified wireless contributes itself, and a
non-wireless device contributes its promoted endpoint when promotion
succeeds. -/
def seen_wireless_ips (env : AdbEnv) : List String :=
  (get_connected_devices env).filterMap
    (fun dev => if is_wireless dev then some dev else ensure_wireless_connected env dev)

/-- get_all_devices_with_wireless models the function at FadADB.py lines
312-326: the returned collection is the Python set of connected devices plus
successfully promoted endpoints (set iteration order is abstracted as
first-occurrence order), and the seen wireless ips are saved over the
persisted state with save_state, whose success flag is discarded. -/
def get_all_devices_with_wireless (env : AdbEnv) (senv : SaveEnv) (fs : FS) :
    List String × FS :=
  let devices := get_connected_devices env
  let promoted := (devices.filter (fun d => !is_wireless d)).filterMap
    (ensure_wireless_connected env)
  let all_devices := (devices ++ promoted).dedup
  let saved := save_state (Json.arr ((seen_wireless_ips env).map Json.str)) senv fs
  (all_devices, saved.2)

/-- auto_reconnect_wireless models the function at FadADB.py lines 328-335:
load the persisted list, invoke adb connect on each entry (rendered through
the f-string), and return those whose output carries the connected marker.
Nothing is ever saved back. -/
def auto_reconnect_wireless (env : AdbEnv) (lenv : LoadEnv) (fs : FS) :
    List Json × FS :=
  let loaded := load_state lenv fs
  (loaded.1.filter (fun v => connectedMarker (env.connectOut (pyToStr v))), loaded.2)

/- Spec-side comparison definitions, used only to exhibit divergences between
the source and the specification text. -/

/-- specOctet follows the spec regex fragment backslash-d one-to-three with
value at most 255: one to three decimal digits whose value is at most 255. -/
def specOctet (p : List Char) : Bool :=
  !p.isEmpty && decide (p.length ≤ 3) && p.all Char.isDigit && decide (digitsToNat p ≤ 255)

/-- specNetworkShape follows the spec words for classify (section 8): the
string matches IPv4 colon port, that is exactly one colon, four dot-separated
octets each of one to three digits with value at most 255 before it, and one
or more digits after it. -/
def specNetworkShape (s : String) : Bool :=
  match splitChar ':' s.data with
  | [ipPart, portPart] =>
    (splitChar '.' ipPart).length == 4 && (splitChar '.' ipPart).all specOctet
      && pyIsdigit portPart
  | _ => false

/-- discoverNetworkAddressSpec follows the spec words for
discoverNetworkAddress (section 4.1): scan the output for an address line and
extract the first IPv4 address found that is not a loopback (127.0.0.0/8) or
link-local (169.254.0.0/16) address. -/
def discoverNetworkAddressSpec (output : String) : Option String :=
  firstSome
    (fun line =>
      match extractInetIp line with
      | some ip =>
        if (splitChar '.' ip).length == 4 && (splitChar '.' ip).all specOctet
            && !listIsPre ("127.".data) ip && !listIsPre ("169.254.".data) ip then
          some (String.mk ip)
        else none
      | none => none)
    (splitChar '\n' output.data)

/- Concrete fixtures for witnesses and counterexamples. -/

/-- senvOk is the save environment where every step succeeds. -/
def senvOk : SaveEnv := ⟨true, true, true, true⟩

/-- senvLockFail is the save environment where only the advisory lock
acquisition fails. -/
def senvLockFail : SaveEnv := ⟨true, false, true, true⟩

/-- lenvOk is the load environment where every step succeeds. -/
def lenvOk : LoadEnv := ⟨true, true, true, true⟩

/-- fsFresh is the filesystem right after StateManager initialization: the
state file holds the default document, no temporary file, no backup. -/
def fsFresh : FS := ⟨some (FileContent.json defaultState), none, none⟩

/-- fsOneKnown is a filesystem whose state file holds one persisted network
endpoint. -/
def fsOneKnown : FS :=
  ⟨some (FileContent.json (Json.obj [("wireless_ips", Json.arr [Json.str "192.168.1.7:5555"])])),
    none, none⟩

/-- badStateText is state-file content that is not valid JSON, as in the spec
corruption scenario. -/
def badStateText : String := "\x7bnot valid json"

/-- fsCorrupt is a filesystem whose state file holds badStateText. -/
def fsCorrupt : FS := ⟨some (FileContent.raw badStateText), none, none⟩

/-- fsUnvalidatedMembers is a filesystem whose state file parses to the
expected shape but whose list members do not all pass the network-endpoint
shape check. -/
def fsUnvalidatedMembers : FS :=
  ⟨some (FileContent.json (Json.obj [("wireless_ips", Json.arr [Json.str "garbage", Json.num 7])])),
    none, none⟩

/-- envNoDevices is a bridge oracle reporting no connected devices. -/
def envNoDevices : AdbEnv :=
  ⟨"List of devices attached", fun _ => "", fun _ => ""⟩

/-- envTenDotIp is a bridge oracle whose interface listing for any serial
carries a loopback address and the global address 10.0.0.7 on wlan0. -/
def envTenDotIp : AdbEnv :=
  ⟨"List of devices attached\nABC123\tdevice",
    fun _ => "    inet 127.0.0.1/8 scope host lo\n    inet 10.0.0.7/24 brd 10.0.0.255 scope global wlan0",
    fun _ => "connected to 10.0.0.7:5555"⟩

/-- envOneNinetyTwoIp is a bridge oracle whose interface listing for any
serial carries the address 192.168.1.20 on wlan0 and whose connect calls
succeed. -/
def envOneNinetyTwoIp : AdbEnv :=
  ⟨"List of devices attached\nABC123\tdevice",
    fun _ => "    inet 192.168.1.20/24 brd 192.168.1.255 scope global wlan0",
    fun _ => "connected to 192.168.1.20:5555"⟩

/-- loadVal is the result of load_state as a function of the combined
open-and-lock outcome and the state-file content alone; load_state is proved
to compute it, which factors the frame reasoning of the theorems below. -/
def loadVal (ok : Bool) (c : Option FileContent) : List Json :=
  match c with
  | none => []
  | some content =>
    if ok then
      match content with
      | FileContent.raw _ => []
      | FileContent.json v =>
        match v with
        | Json.obj fields =>
          match lookupField "wireless_ips" fields with
          | some (Json.arr l) => l
          | some _ => []
          | none => []
        | _ => []
    else []

/- Helper lemmas shared by the claim theorems. -/

/-- load_state returns exactly loadVal of the open-and-lock outcome and the
state-file content. -/
theorem load_state_result (env : LoadEnv) (fs : FS) :
    (load_state env fs).1 = loadVal (env.openOk && env.lockOk) fs.stateFile := by
  rcases env with ⟨o, lk, bk, cr⟩
  rcases fs with ⟨st, tmp, cor⟩
  cases st with
  | none => cases cr <;> rfl
  | some c =>
    cases o with
    | false => rfl
    | true =>
      cases lk with
      | false => rfl
      | true =>
        cases c with
        | raw s => cases bk <;> rfl
        | json v =>
          cases v with
          | obj fields =>
            show (match lookupField "wireless_ips" fields with
              | some (Json.arr l) => (l, FS.mk (some (FileContent.json (Json.obj fields))) tmp cor)
              | some _ => ([], FS.mk (some (FileContent.json (Json.obj fields))) tmp cor)
              | none => ([], FS.mk (some (FileContent.json (Json.obj fields))) tmp cor)).1
              = loadVal true (some (FileContent.json (Json.obj fields)))
            rcases h : lookupField "wireless_ips" fields with _ | w
            · simp [loadVal, h]
            · cases w <;> simp [loadVal, h]
          | null => rfl
          | bool b => rfl
          | num n => rfl
          | str s => rfl
          | arr l => rfl

/-- load_state leaves the state-file content alone except in the absent case,
where it may write the default document. -/
theorem load_state_keeps (env : LoadEnv) (fs : FS) :
    (load_state env fs).2.stateFile = fs.stateFile ∨
      (fs.stateFile = none ∧
        (load_state env fs).2.stateFile = some (FileContent.json defaultState)) := by
  rcases env with ⟨o, lk, bk, cr⟩
  rcases fs with ⟨st, tmp, cor⟩
  cases st with
  | none =>
    cases cr with
    | false => exact Or.inl rfl
    | true => exact Or.inr ⟨rfl, rfl⟩
  | some c =>
    cases o with
    | false => exact Or.inl rfl
    | true =>
      cases lk with
      | false => exact Or.inl rfl
      | true =>
        cases c with
        | raw s => cases bk <;> exact Or.inl rfl
        | json v =>
          cases v with
          | obj fields =>
            rcases h : lookupField "wireless_ips" fields with _ | w
            · exact Or.inl (by simp [load_state, h])
            · cases w <;> exact Or.inl (by simp [load_state, h])
          | null => exact Or.inl rfl
          | bool b => exact Or.inl rfl
          | num n => exact Or.inl rfl
          | str s => exact Or.inl rfl
          | arr l => exact Or.inl rfl

/-- loadVal gives the empty list on an absent file and on the default
document, whatever the lock outcome. -/
theorem loadVal_trivial (ok : Bool) :
    loadVal ok none = [] ∧ loadVal ok (some (FileContent.json defaultState)) = [] := by
  cases ok <;> exact ⟨rfl, rfl⟩

/-- firstSome only ever returns values its body could return. -/
theorem firstSome_forall {α β : Type} {f : α → Option β} {p : β → Bool}
    (hf : ∀ a b, f a = some b → p b = true) :
    ∀ (l : List α) (b : β), firstSome f l = some b → p b = true := by
  intro l
  induction l with
  | nil =>
    intro b h
    simp [firstSome] at h
  | cons a t ih =>
    intro b h
    simp only [firstSome] at h
    cases hfa : f a with
    | some c =>
      rw [hfa] at h
      simp only [] at h
      cases h
      exact hf a b hfa
    | none =>
      rw [hfa] at h
      exact ih b h

/- Claim theorems. -/

/-- C2 (code bug, code evaluated at the failing input): on a state file
holding text that is not valid JSON, load_state returns the empty list and
writes the .corrupted backup with the original bytes, but the state file
itself still holds the corrupted bytes afterwards — _ensure_state_file_exists
is a no-op because the file exists, although the code logs restoring default —
and a second load_state again returns the empty list without raising. -/
theorem c2_code_behavior :
    (load_state lenvOk fsCorrupt).1 = [] ∧
    (load_state lenvOk fsCorrupt).2.corruptedFile = some (FileContent.raw badStateText) ∧
    (load_state lenvOk fsCorrupt).2.stateFile = some (FileContent.raw badStateText) ∧
    (load_state lenvOk ((load_state lenvOk fsCorrupt).2)).1 = [] :=
  ⟨rfl, rfl, rfl, rfl⟩

/-- C3 (code bug, code evaluated at the failing input): is_wireless classifies
10.0.0.1:5555 as not wireless although it matches the IPv4 colon port shape
the spec demands, agrees with the spec on 999.1.1.1:5555, and classifies
192.garbage as wireless although it fails the shape — the classification is
the bare starts-with-192 heuristic, not the shape check. -/
theorem c3_code_behavior :
    is_wireless "10.0.0.1:5555" = false ∧ specNetworkShape "10.0.0.1:5555" = true ∧
    is_wireless "999.1.1.1:5555" = false ∧ specNetworkShape "999.1.1.1:5555" = false ∧
    is_wireless "192.garbage" = true ∧ specNetworkShape "192.garbage" = false :=
  ⟨rfl, rfl, rfl, rfl, rfl, rfl⟩

/-- C5 counterexample: save_state persists duplicates as given (two copies of
10.0.0.1:9999 survive a save-then-load round trip) and persists an endpoint
whose port part is not a number, so the claimed deduplication and full
shape validation do not happen. -/
theorem c5_counterexample :
    (load_state lenvOk ((save_state
        (Json.arr [Json.str "10.0.0.1:9999", Json.str "10.0.0.1:9999"]) senvOk fsFresh).2)).1
      = [Json.str "10.0.0.1:9999", Json.str "10.0.0.1:9999"] ∧
    (load_state lenvOk ((save_state
        (Json.arr [Json.str "1.2.3.4:notaport"]) senvOk fsFresh).2)).1
      = [Json.str "1.2.3.4:notaport"] :=
  ⟨rfl, rfl⟩

/-- C5 (amended): a fully successful save_state followed by load_state yields
exactly the elements surviving the validation loop, in order and with
duplicates kept — the loop drops non-strings, strings without a colon, and
strings whose part before the first colon is not four all-digit groups each
at most 255, and it inspects neither the port nor duplicate occurrences; in
particular the spec example persists exactly 192.168.1.5:5555 and
10.0.0.1:9999. -/
theorem c5_amended :
    (∀ (fs : FS) (xs : List Json),
      (load_state lenvOk ((save_state (Json.arr xs) senvOk fs).2)).1
        = (pyValidIps xs).map Json.str) ∧
    (load_state lenvOk ((save_state
        (Json.arr [Json.str "192.168.1.5:5555", Json.str "not-an-ip", Json.str "10.0.0.1:9999"])
        senvOk fsFresh).2)).1
      = [Json.str "192.168.1.5:5555", Json.str "10.0.0.1:9999"] :=
  ⟨fun _ _ => rfl, rfl⟩

/-- C6 counterexample: a state file parsing to the expected object whose list
holds a non-endpoint string and a number is returned by load_state exactly as
stored — no member is validated or dropped, while the claim demands that only
valid members are returned (here none are valid). -/
theorem c6_counterexample :
    (load_state lenvOk fsUnvalidatedMembers).1 = [Json.str "garbage", Json.num 7] :=
  rfl

/-- C6 (amended): when the state file parses as an object whose wireless_ips
field is a list, load_state returns that list as stored, without any
per-member validation. -/
theorem c6_amended (env : LoadEnv) (fs : FS) (fields : List (String × Json)) (l : List Json)
    (ho : env.openOk = true) (hlk : env.lockOk = true)
    (hst : fs.stateFile = some (FileContent.json (Json.obj fields)))
    (hv : lookupField "wireless_ips" fields = some (Json.arr l)) :
    (load_state env fs).1 = l := by
  rw [load_state_result, hst, ho, hlk]
  simp [loadVal, hv]

/-- C6 witness: the amended theorem applied to a stored single-endpoint
list. -/
theorem c6_witness : (load_state lenvOk fsOneKnown).1 = [Json.str "192.168.1.7:5555"] :=
  c6_amended lenvOk fsOneKnown _ _ rfl rfl rfl rfl

/-- C4 counterexample: a refresh cycle in which the bridge reports no
connected devices rewrites the persisted set to empty, losing the previously
persisted endpoint 192.168.1.7:5555 that the claim says must survive every
cycle. -/
theorem c4_counterexample :
    (load_state lenvOk fsOneKnown).1 = [Json.str "192.168.1.7:5555"] ∧
    (load_state lenvOk ((get_all_devices_with_wireless envNoDevices senvOk fsOneKnown).2)).1
      = [] :=
  ⟨rfl, rfl⟩

/-- C4 (amended): the refresh cycle persists exactly the network endpoints
seen this cycle — it is save of the new endpoints, not save of the union with
the previously loaded set, so the state after the cycle is the validated seen
list regardless of what was persisted before. -/
theorem c4_amended (env : AdbEnv) (fs : FS) :
    (load_state lenvOk ((get_all_devices_with_wireless env senvOk fs).2)).1
      = (pyValidIps ((seen_wireless_ips env).map Json.str)).map Json.str :=
  rfl

/-- C10 (confirmed): a non-list argument makes save_state return False with
the filesystem completely untouched — no temporary file, no lock, no state
file write. -/
theorem c10_save_nonlist (arg : Json) (env : SaveEnv) (fs : FS)
    (h : ∀ xs, arg ≠ Json.arr xs) :
    save_state arg env fs = (false, fs) := by
  cases arg
  case arr xs => exact absurd rfl (h xs)
  all_goals rfl

/-- C10 witness: save_state on a string argument returns False and leaves the
fresh filesystem unchanged. -/
theorem c10_witness : save_state (Json.str "not-a-list") senvOk fsFresh = (false, fsFresh) :=
  c10_save_nonlist _ _ _ (fun _ h => Json.noConfusion h)

/-- C1 counterexample: when the advisory lock cannot be acquired, save_state
returns False and leaves the state file untouched, but the temporary file it
created is not deleted — it remains behind as an empty truncated file, while
the claim says every post-creation failure deletes it. -/
theorem c1_counterexample :
    (save_state (Json.arr [Json.str "10.0.0.2:5555"]) senvLockFail fsOneKnown).1 = false ∧
    (save_state (Json.arr [Json.str "10.0.0.2:5555"]) senvLockFail fsOneKnown).2.tempFile
      = some (FileContent.raw "") ∧
    (save_state (Json.arr [Json.str "10.0.0.2:5555"]) senvLockFail fsOneKnown).2.stateFile
      = fsOneKnown.stateFile :=
  ⟨rfl, rfl, rfl⟩

/-- C1 (amended): every failing save_state call leaves the state file and the
backup exactly as they were; serialization and rename failures (and an open
failure) delete the temporary file, while a lock-acquisition failure on a
list argument leaves the temporary file behind as an empty truncated file. -/
theorem c1_amended (arg : Json) (env : SaveEnv) (fs : FS)
    (h : (save_state arg env fs).1 = false) :
    (save_state arg env fs).2.stateFile = fs.stateFile ∧
    (save_state arg env fs).2.corruptedFile = fs.corruptedFile ∧
    (env.openOk = true → env.lockOk = false → (∃ xs, arg = Json.arr xs) →
      (save_state arg env fs).2.tempFile = some (FileContent.raw "")) ∧
    (env.lockOk = true → (∃ xs, arg = Json.arr xs) →
      (save_state arg env fs).2.tempFile = none) ∧
    (env.openOk = false → (∃ xs, arg = Json.arr xs) →
      (save_state arg env fs).2.tempFile = none) := by
  rcases env with ⟨o, lk, d, r⟩
  cases arg <;> cases o <;> cases lk <;> cases d <;> cases r <;> simp_all [save_state]

/-- C1 witness: the amended theorem applied to a lock-acquisition failure on
a fresh filesystem. -/
theorem c1_witness :
    (save_state (Json.arr [Json.str "192.168.1.5:5555"]) senvLockFail fsFresh).2.stateFile
      = fsFresh.stateFile ∧
    (save_state (Json.arr [Json.str "192.168.1.5:5555"]) senvLockFail fsFresh).2.corruptedFile
      = fsFresh.corruptedFile ∧
    (senvLockFail.openOk = true → senvLockFail.lockOk = false →
      (∃ xs, Json.arr [Json.str "192.168.1.5:5555"] = Json.arr xs) →
      (save_state (Json.arr [Json.str "192.168.1.5:5555"]) senvLockFail fsFresh).2.tempFile
        = some (FileContent.raw "")) ∧
    (senvLockFail.lockOk = true → (∃ xs, Json.arr [Json.str "192.168.1.5:5555"] = Json.arr xs) →
      (save_state (Json.arr [Json.str "192.168.1.5:5555"]) senvLockFail fsFresh).2.tempFile
        = none) ∧
    (senvLockFail.openOk = false → (∃ xs, Json.arr [Json.str "192.168.1.5:5555"] = Json.arr xs) →
      (save_state (Json.arr [Json.str "192.168.1.5:5555"]) senvLockFail fsFresh).2.tempFile
        = none) :=
  c1_amended _ _ _ rfl

/-- C7 counterexample: on interface output carrying a loopback line and the
global address 10.0.0.7, get_device_ip returns none, although the first
non-loopback non-link-local IPv4 address the spec demands is 10.0.0.7 — the
code only accepts addresses starting with 192 dot. -/
theorem c7_counterexample :
    get_device_ip envTenDotIp "ABC123" = none ∧
    discoverNetworkAddressSpec (envTenDotIp.ipShowOut "ABC123") = some "10.0.0.7" :=
  ⟨rfl, rfl⟩

/-- C7 (amended): get_device_ip only ever returns an address starting with
192 dot — any inet-line address outside that prefix, loopback or not, is
skipped — and it does return such an address when the interface output
carries one, as with 192.168.1.20. -/
theorem c7_amended :
    (∀ (env : AdbEnv) (dev ip : String), get_device_ip env dev = some ip →
      listIsPre ("192.".data) ip.data = true) ∧
    get_device_ip envOneNinetyTwoIp "ABC123" = some "192.168.1.20" := by
  constructor
  · intro env dev ip h
    have hf : ∀ (line : List Char) (b : String), wifiIpPick line = some b →
        listIsPre ("192.".data) b.data = true := by
      intro line b hb
      cases hq : extractInetIp line with
      | none =>
        rw [wifiIpPick, hq] at hb
        cases hb
      | some q =>
        rw [wifiIpPick, hq] at hb
        cases h192 : listIsPre ("192.".data) q with
        | false => simp [h192] at hb
        | true =>
          simp [h192] at hb
          subst hb
          exact h192
    exact @firstSome_forall (List Char) String wifiIpPick
      (fun s => listIsPre ("192.".data) s.data) hf
      (splitChar '\n' (env.ipShowOut dev).data) ip h
  · rfl

/-- C7 witness: the amended theorem applied to the 192.168.1.20 interface
output, concluding that the returned address starts with 192 dot. -/
theorem c7_witness : listIsPre ("192.".data) (("192.168.1.20" : String).data) = true :=
  c7_amended.1 envOneNinetyTwoIp "ABC123" "192.168.1.20" rfl

/-- C8 (confirmed): auto_reconnect_wireless never changes the persisted set —
under identical load conditions, a load after a reconnect pass returns
exactly what a load before it returned, whatever the bridge answers and
whatever the internal load of the reconnect pass encounters. -/
theorem c8_reconnect_nondestructive (env : AdbEnv) (lenv lenv2 : LoadEnv) (fs : FS) :
    (load_state lenv ((auto_reconnect_wireless env lenv2 ((load_state lenv fs).2)).2)).1
      = (load_state lenv fs).1 := by
  have hr : (auto_reconnect_wireless env lenv2 ((load_state lenv fs).2)).2
      = (load_state lenv2 ((load_state lenv fs).2)).2 := rfl
  rw [hr, load_state_result, load_state_result]
  rcases load_state_keeps lenv2 ((load_state lenv fs).2) with h2 | ⟨hn2, h2⟩
  · rw [h2]
    rcases load_state_keeps lenv fs with h1 | ⟨hn1, h1⟩
    · rw [h1]
    · rw [h1, hn1, (loadVal_trivial _).2, (loadVal_trivial _).1]
  · rcases load_state_keeps lenv fs with h1 | ⟨hn1, h1⟩
    · have hfs : fs.stateFile = none := by rw [← h1, hn2]
      rw [h2, hfs, (loadVal_trivial _).2, (loadVal_trivial _).1]
    · rw [h1] at hn2
      cases hn2

/-- C9 (confirmed): load_state is total over every modelled condition of the
state file and of its fallible steps — absent file, unreadable file, lock
not acquired, content that fails JSON parsing, parsed content of the wrong
top-level shape, a non-list wireless_ips field — each yields the empty list,
and a well-shaped file yields exactly its stored list; no condition escapes
as an exception. -/
theorem c9_load_total (env : LoadEnv) (fs : FS) :
    (fs.stateFile = none → (load_state env fs).1 = []) ∧
    (env.openOk = false → (load_state env fs).1 = []) ∧
    (env.lockOk = false → (load_state env fs).1 = []) ∧
    (∀ s, fs.stateFile = some (FileContent.raw s) → (load_state env fs).1 = []) ∧
    (∀ v, fs.stateFile = some (FileContent.json v) → (∀ fields, v ≠ Json.obj fields) →
      (load_state env fs).1 = []) ∧
    (∀ fields, fs.stateFile = some (FileContent.json (Json.obj fields)) →
      lookupField "wireless_ips" fields = none → (load_state env fs).1 = []) ∧
    (∀ fields v, fs.stateFile = some (FileContent.json (Json.obj fields)) →
      lookupField "wireless_ips" fields = some v → (∀ l, v ≠ Json.arr l) →
      (load_state env fs).1 = []) ∧
    (∀ fields l, env.openOk = true → env.lockOk = true →
      fs.stateFile = some (FileContent.json (Json.obj fields)) →
      lookupField "wireless_ips" fields = some (Json.arr l) →
      (load_state env fs).1 = l) := by
  rcases env with ⟨o, lk, bk, cr⟩
  rcases fs with ⟨st, tmp, cor⟩
  refine ⟨?_, ?_, ?_, ?_, ?_, ?_, ?_, ?_⟩
  · intro h
    rw [load_state_result]
    subst h
    rfl
  · intro h
    rw [load_state_result]
    subst h
    cases st <;> rfl
  · intro h
    rw [load_state_result]
    subst h
    cases o <;> cases st <;> rfl
  · intro s h
    rw [load_state_result]
    subst h
    cases o <;> cases lk <;> rfl
  · intro v h hno
    rw [load_state_result]
    subst h
    cases v with
    | obj fields => exact absurd rfl (hno fields)
    | null => cases o <;> cases lk <;> rfl
    | bool b => cases o <;> cases lk <;> rfl
    | num n => cases o <;> cases lk <;> rfl
    | str s => cases o <;> cases lk <;> rfl
    | arr l => cases o <;> cases lk <;> rfl
  · intro fields h hl
    rw [load_state_result]
    subst h
    cases o <;> cases lk <;> simp [loadVal, hl]
  · intro fields v h hl hno
    rw [load_state_result]
    subst h
    cases v with
    | arr l => exact absurd rfl (hno l)
    | null => cases o <;> cases lk <;> simp [loadVal, hl]
    | bool b => cases o <;> cases lk <;> simp [loadVal, hl]
    | num n => cases o <;> cases lk <;> simp [loadVal, hl]
    | str s => cases o <;> cases lk <;> simp [loadVal, hl]
    | obj g => cases o <;> cases lk <;> simp [loadVal, hl]
  · intro fields l ho hlk h hl
    rw [load_state_result]
    subst h
    subst ho
    subst hlk
    simp [loadVal, hl]

/-- C9 witness: the totality theorem applied to an absent state file, which
loads as the empty list. -/
theorem c9_witness : (load_state lenvOk ⟨none, none, none⟩).1 = [] :=
  (c9_load_total lenvOk ⟨none, none, none⟩).1 rfl

end FadADB
